import Mathlib

/-!
Verification of the metrics-configuration-driven query-and-aggregation
pipeline of the `google_ad_sample` repository.

The Python sources embedded here:
  * `src/utils/metrics_config.py` — `MetricsConfigUtils` (configuration
    table, active-metric filtering, reserved parameters, query builder);
  * `src/modules/google_ads.py` — `GoogleAdsAPI` (field mapping, the
    query actually submitted to the Ads service, record shaping,
    derived-metric evaluation, dummy-data generator);
  * `src/main.py` — the merge-and-persist step over the spreadsheet.

The configuration table is a pandas DataFrame read from a spreadsheet;
its cells are embedded as `CellVal` (native boolean, text, or NaN), a row
as `MetricRow`, and the table as `MetricsConfig` together with flags
recording which optional columns (`active`, `calc`) are present.
-/

namespace AdSample

/-- A configuration-table cell as the pandas code observes it: a native
boolean, a text value, or NaN (missing). -/
inductive CellVal where
  | b (v : Bool)
  | s (v : String)
  | na
deriving DecidableEq, Repr

/-- One row of the metrics-configuration table: the `metrics` key, the
display `name`, the `active` cell, the optional `calc` formula text
(`none` embeds NaN, `some ""` an empty cell), and the optional
`parameter` text. -/
structure MetricRow where
  metrics : String
  name : String
  active : CellVal
  calcCell : Option String
  parameter : Option String
deriving DecidableEq, Repr

/-- The loaded configuration table: its rows plus flags recording whether
the optional `active` and `calc` columns exist in the sheet header (the
Python code looks both up case-insensitively and branches on absence). -/
structure MetricsConfig where
  rows : List MetricRow
  hasActiveCol : Bool
  hasCalcCol : Bool
deriving DecidableEq, Repr

/-- The truthiness test the source applies to the `active` cell:
`(df['active'] == True) | (df['active'] == 'TRUE') | (df['active'] == 'True')`.
Under Python/pandas equality a text cell never equals the boolean `True`,
so exactly the native boolean `True` and the two spellings `'TRUE'` and
`'True'` pass. -/
def isActiveTruthy : CellVal → Bool
  | CellVal.b v => v
  | CellVal.s v => v == "TRUE" || v == "True"
  | CellVal.na => false

/-- `excluded_fields = ['campaign_status', 'period_days', 'limit']` — the
three reserved parameter keys. -/
def excludedFields : List String := ["campaign_status", "period_days", "limit"]

/-- The emptiness test `calc.isna() | (calc == '')` applied to a `calc`
cell. -/
def calcIsEmpty : Option String → Bool
  | none => true
  | some s => s == ""

/-- Whether a row passes the active filter of
`get_active_metrics_list` / `get_calculated_metrics`: when the table has
no `active` column every row is treated as active, otherwise the truthy
test applies. -/
def rowIsActive (cfg : MetricsConfig) (r : MetricRow) : Bool :=
  if cfg.hasActiveCol then isActiveTruthy r.active else true

/-- `MetricsConfigUtils.get_active_metrics_list`: the metric keys to
request from the API — active rows, minus the reserved parameter keys,
and (when a `calc` column exists) minus rows with a non-empty formula. -/
def get_active_metrics_list (cfg : MetricsConfig) : List String :=
  let activeMetrics := cfg.rows.filter (rowIsActive cfg)
  if cfg.hasCalcCol then
    (activeMetrics.filter
      (fun r => !(excludedFields.contains r.metrics) && calcIsEmpty r.calcCell)).map
      (fun r => r.metrics)
  else
    (activeMetrics.filter
      (fun r => !(excludedFields.contains r.metrics))).map (fun r => r.metrics)

/-- `MetricsConfigUtils.get_calculated_metrics`: the derived-metric
entries `(key, display name, formula text)`, one per row that passes the
active filter and has a non-empty `calc` cell; empty when the table has
no `calc` column.  (The Python code collects these rows into a dict keyed
by `row['metrics']`; with unique keys the dict holds exactly these
entries in this order.) -/
def get_calculated_metrics (cfg : MetricsConfig) : List (String × String × String) :=
  if !cfg.hasCalcCol then []
  else
    let calcMetrics := cfg.rows.filter
      (fun r => rowIsActive cfg r && !(calcIsEmpty r.calcCell))
    calcMetrics.map (fun r => (r.metrics, r.name, r.calcCell.getD ""))

/-- Whitespace as Python's `int()` strips it around the literal. -/
def isSpaceChar (c : Char) : Bool :=
  c == ' ' || c == '\t' || c == '\n' || c == '\r'

/-- Accumulating decimal parse: every character must be a digit. -/
def parseNatAux : List Char → Nat → Option Nat
  | [], acc => some acc
  | c :: cs, acc =>
    if c.isDigit then parseNatAux cs (acc * 10 + (c.toNat - '0'.toNat))
    else none

/-- Parses a non-empty all-digit character list as a natural number. -/
def parseNatDigits : List Char → Option Nat
  | [] => none
  | cs => parseNatAux cs 0

/-- Python's `int(...)` applied to a text cell: optional surrounding
whitespace, an optional sign, then at least one decimal digit; `none`
when the text is not such an integer literal (the `ValueError` case). -/
def pyToInt (s : String) : Option Int :=
  let cs := s.data.dropWhile isSpaceChar
  let cs := (cs.reverse.dropWhile isSpaceChar).reverse
  match cs with
  | '-' :: rest => (parseNatDigits rest).map (fun n => -(n : Int))
  | '+' :: rest => (parseNatDigits rest).map (fun n => (n : Int))
  | rest => (parseNatDigits rest).map (fun n => (n : Int))

/-- Python's `int(...)` applied to an optional cell: a NaN cell (from an
empty spreadsheet cell) also raises `ValueError`. -/
def pyCellToInt : Option String → Option Int
  | none => none
  | some s => pyToInt s

/-- `MetricsConfigUtils.get_period_days`: the first row keyed
`period_days` (no active filter); its `parameter` converted with `int`,
falling back to the default 30 when the row is absent or the conversion
raises `ValueError`. -/
def get_period_days (cfg : MetricsConfig) : Int :=
  match cfg.rows.filter (fun r => r.metrics == "period_days") with
  | [] => 30
  | r :: _ => (pyCellToInt r.parameter).getD 30

/-- `MetricsConfigUtils.get_limit`: the first row keyed `limit` (no
active filter); its `parameter` converted with `int`, falling back to the
default 100 when the row is absent or the conversion raises
`ValueError`. -/
def get_limit (cfg : MetricsConfig) : Int :=
  match cfg.rows.filter (fun r => r.metrics == "limit") with
  | [] => 100
  | r :: _ => (pyCellToInt r.parameter).getD 100

/-- The parameter dictionary produced by
`MetricsConfigUtils.get_query_parameters`. -/
structure QueryParams where
  campaign_status : String
  period_days : Int
  limit : Int
deriving DecidableEq, Repr

/-- Looks up the reserved parameter cell the way `get_query_parameters`
does: the first active row with the given key, skipped when absent or
when its `parameter` cell is NaN. -/
def activeParamCell (cfg : MetricsConfig) (key : String) : Option String :=
  match (cfg.rows.filter (fun r => isActiveTruthy r.active)).filter
      (fun r => r.metrics == key) with
  | [] => none
  | r :: _ => r.parameter

/-- `MetricsConfigUtils.get_query_parameters`: reads the three reserved
parameters from active rows, converting `period_days` and `limit` with a
bare `int(...)` — a non-integer value raises `ValueError` out of the
function (`Except.error`); only absent rows and NaN cells fall back to
the defaults `'ENABLED'`, 30, 100. -/
def get_query_parameters (cfg : MetricsConfig) : Except String QueryParams := do
  let status := (activeParamCell cfg "campaign_status").getD "ENABLED"
  let period ←
    match activeParamCell cfg "period_days" with
    | none => pure (30 : Int)
    | some s =>
      match pyToInt s with
      | some n => pure n
      | none => Except.error "ValueError: invalid literal for int()"
  let lim ←
    match activeParamCell cfg "limit" with
    | none => pure (100 : Int)
    | some s =>
      match pyToInt s with
      | some n => pure n
      | none => Except.error "ValueError: invalid literal for int()"
  pure ⟨status, period, lim⟩

/-- `MetricsConfigUtils.get_active_metrics` (used only by `build_query`):
active rows minus the reserved keys — with no exclusion of derived
metrics. -/
def get_active_metrics (cfg : MetricsConfig) : List String :=
  ((cfg.rows.filter (fun r => isActiveTruthy r.active)).filter
    (fun r => !(excludedFields.contains r.metrics))).map (fun r => r.metrics)

/-! ### String containment

Substring machinery used to state facts about the produced query text. -/

/-- `chPre n h`: the character list `n` starts the character list `h`. -/
def chPre : List Char → List Char → Bool
  | [], _ => true
  | _ :: _, [] => false
  | a :: as, b :: bs => a == b && chPre as bs

/-- `chSub n h`: the character list `n` occurs contiguously in `h`. -/
def chSub (needle : List Char) : List Char → Bool
  | [] => chPre needle []
  | b :: bs => chPre needle (b :: bs) || chSub needle bs

/-- `strHas hay needle`: `needle` occurs as a contiguous substring of
`hay`. -/
def strHas (hay needle : String) : Bool := chSub needle.data hay.data

theorem chPre_append {n h : List Char} (t : List Char)
    (hp : chPre n h = true) : chPre n (h ++ t) = true := by
  induction n generalizing h with
  | nil => simp [chPre]
  | cons a as ih =>
    cases h with
    | nil => simp [chPre] at hp
    | cons b bs =>
      simp only [chPre, Bool.and_eq_true, beq_iff_eq] at hp ⊢
      exact ⟨hp.1, ih hp.2⟩

theorem chSub_nil_needle : ∀ l : List Char, chSub [] l = true
  | [] => rfl
  | _ :: bs => by simp [chSub, chPre]

theorem chSub_append_left {n h : List Char} (t : List Char)
    (hp : chSub n h = true) : chSub n (h ++ t) = true := by
  induction h with
  | nil =>
    cases n with
    | nil => exact chSub_nil_needle t
    | cons a as => simp [chSub, chPre] at hp
  | cons b bs ih =>
    simp only [chSub, Bool.or_eq_true] at hp
    rcases hp with hp | hp
    · simp only [List.cons_append, chSub, Bool.or_eq_true]
      exact Or.inl (chPre_append t hp)
    · simp only [List.cons_append, chSub, Bool.or_eq_true]
      exact Or.inr (ih hp)

theorem chSub_append_right {n t : List Char} (h : List Char)
    (hp : chSub n t = true) : chSub n (h ++ t) = true := by
  induction h with
  | nil => exact hp
  | cons b bs ih =>
    simp only [List.cons_append, chSub, Bool.or_eq_true]
    exact Or.inr ih

theorem chPre_self : ∀ n : List Char, chPre n n = true
  | [] => rfl
  | a :: as => by
    simp only [chPre, Bool.and_eq_true, beq_self_eq_true, true_and]
    exact chPre_self as

theorem chSub_self : ∀ n : List Char, chSub n n = true
  | [] => rfl
  | a :: as => by
    simp only [chSub, Bool.or_eq_true]
    exact Or.inl (chPre_self (a :: as))

theorem strHas_append_left {a n : String} (b : String)
    (h : strHas a n = true) : strHas (a ++ b) n = true := by
  unfold strHas at h ⊢
  rw [String.data_append]
  exact chSub_append_left _ h

theorem strHas_append_right {b n : String} (a : String)
    (h : strHas b n = true) : strHas (a ++ b) n = true := by
  unfold strHas at h ⊢
  rw [String.data_append]
  exact chSub_append_right _ h

theorem strHas_self (s : String) : strHas s s = true := chSub_self s.data

/-- `', '.join` from the Python sources. -/
def joinComma : List String → String
  | [] => ""
  | [s] => s
  | s :: rest => s ++ (", " ++ joinComma rest)

theorem strHas_joinComma {l : List String} {f : String} (hf : f ∈ l) :
    strHas (joinComma l) f = true := by
  induction l with
  | nil => cases hf
  | cons x rest ih =>
    cases rest with
    | nil =>
      have hx : f = x := List.mem_singleton.mp hf
      subst hx
      exact strHas_self _
    | cons y t =>
      have hj : joinComma (x :: y :: t) = x ++ (", " ++ joinComma (y :: t)) :=
        rfl
      rw [hj]
      rcases List.mem_cons.mp hf with hx | hmem
      · subst hx
        exact strHas_append_left _ (strHas_self _)
      · exact strHas_append_right x (strHas_append_right ", " (ih hmem))

/-! ### Query builders -/

/-- `GoogleAdsAPI.get_field_mapping`: the fixed metric-key → dotted
field-path lookup, passing unknown keys through unchanged. -/
def get_field_mapping (metric : String) : String :=
  if metric == "impressions" then "metrics.impressions"
  else if metric == "clicks" then "metrics.clicks"
  else if metric == "cost_micros" then "metrics.cost_micros"
  else if metric == "conversions" then "metrics.conversions"
  else if metric == "ctr" then "metrics.ctr"
  else if metric == "average_cpc" then "metrics.average_cpc"
  else if metric == "search_top_impression_share" then
    "metrics.search_top_impression_share"
  else metric

/-- The f-string of `GoogleAdsAPI.get_campaign_metrics` — the query text
that is actually submitted to the Ads service — with the interpolated
parts (`', '.join(metrics_query_fields)`, `start_date_str`,
`end_date_str`, `limit`) made explicit. -/
def submittedQueryStr (fields : List String) (startDateStr endDateStr : String)
    (limit : Int) : String :=
  "\n            SELECT \n                campaign.id, \n                campaign.name, \n                campaign.status, \n                campaign.advertising_channel_type, \n                "
  ++ (joinComma fields
  ++ ("\n            FROM campaign \n            WHERE \n                campaign.status = 'ENABLED' \n                AND "
  ++ (("segments.date >= '" ++ startDateStr ++ "'")
  ++ (" \n                AND "
  ++ (("segments.date <= '" ++ endDateStr ++ "'")
  ++ ("\n            "
  ++ (("LIMIT " ++ toString limit)
  ++ "\n            ")))))))

/-- The query-building portion of `GoogleAdsAPI.get_campaign_metrics`:
maps the active metric keys with `get_field_mapping`, renders the date
window `[today - get_period_days, today]` with the date formatter `iso`
(standing for `date.strftime('%Y-%m-%d')` over abstract day numbers), and
bounds the query by `get_limit`. -/
def getCampaignMetricsQuery (cfg : MetricsConfig) (iso : Int → String)
    (today : Int) : String :=
  let fields := (get_active_metrics_list cfg).map get_field_mapping
  submittedQueryStr fields (iso (today - get_period_days cfg)) (iso today)
    (get_limit cfg)

/-- The f-string of `MetricsConfigUtils.build_query`; `\x7bstart_date\x7d`
and `\x7bend_date\x7d` are emitted literally (the doubled braces of the
Python f-string). -/
def buildQueryStr (metricsList : List String) (campaignStatus : String)
    (limit : Int) : String :=
  "\n            SELECT\n                campaign.id, campaign.name, campaign.status, campaign.advertising_channel_type,\n                "
  ++ (joinComma (metricsList.map (fun m => "metrics." ++ m))
  ++ ("\n            FROM campaign\n            WHERE \n                segments.date BETWEEN '{start_date}' AND '{end_date}'\n                AND "
  ++ (("campaign.status = '" ++ campaignStatus ++ "'")
  ++ ("\n                AND metrics.impressions > 0\n            ORDER BY metrics.impressions DESC\n            "
  ++ (("LIMIT " ++ toString limit)
  ++ "\n        ")))))

/-- `MetricsConfigUtils.build_query`: combines `get_active_metrics` with
`get_query_parameters` (and therefore propagates the latter's
`ValueError`).  This function has no callers anywhere in the repository;
the query submitted to the Ads service is `getCampaignMetricsQuery`. -/
def build_query (cfg : MetricsConfig) : Except String (String × QueryParams) := do
  let params ← get_query_parameters cfg
  pure (buildQueryStr (get_active_metrics cfg) params.campaign_status
    params.limit, params)

/-! ### Record shaping and formula evaluation -/

/-- Looks up a variable in the per-row `variables` map (a Python dict of
metric key → numeric value). -/
def lookupVar (vars : List (String × ℚ)) (x : String) : Option ℚ :=
  (vars.find? (fun p => p.1 == x)).map (fun p => p.2)

/-- An arithmetic formula over metric keys — the expression representation
of the `calc` strings that `get_campaign_metrics` hands to
`eval(calc_expr, \x7b"__builtins__": \x7b\x7d\x7d, variables)` (per spec
§9 the formulas are closed arithmetic over the row's variables; no
builtins are reachable). -/
inductive Expr where
  | lit (q : ℚ)
  | var (x : String)
  | add (a b : Expr)
  | sub (a b : Expr)
  | mul (a b : Expr)
  | div (a b : Expr)
deriving DecidableEq, Repr

/-- Evaluates a formula against the row's variables map, with Python
`eval` fault behavior: an unbound variable (`NameError`) or a division by
zero (`ZeroDivisionError`) yields `none` (the raised exception the caller
catches). -/
def evalExpr (vars : List (String × ℚ)) : Expr → Option ℚ
  | Expr.lit q => some q
  | Expr.var x => lookupVar vars x
  | Expr.add a b =>
    match evalExpr vars a, evalExpr vars b with
    | some x, some y => some (x + y)
    | _, _ => none
  | Expr.sub a b =>
    match evalExpr vars a, evalExpr vars b with
    | some x, some y => some (x - y)
    | _, _ => none
  | Expr.mul a b =>
    match evalExpr vars a, evalExpr vars b with
    | some x, some y => some (x * y)
    | _, _ => none
  | Expr.div a b =>
    match evalExpr vars a, evalExpr vars b with
    | some x, some y => if y = 0 then none else some (x / y)
    | _, _ => none

/-- One derived-metric evaluation from the calculated-fields loop of
`get_campaign_metrics` / `get_dummy_campaign_metrics`: the
`conversion_rate` key with both `conversions` and `clicks` present is
special-cased (ratio when `clicks > 0`, else 0); every other formula is
evaluated with `eval`, and a raised fault is caught and recorded as
`None` (`none`). -/
def computeCalcField (vars : List (String × ℚ)) (key : String)
    (formula : Expr) : Option ℚ :=
  if key == "conversion_rate" && (lookupVar vars "conversions").isSome
      && (lookupVar vars "clicks").isSome then
    match lookupVar vars "conversions", lookupVar vars "clicks" with
    | some conv, some clk => if clk > 0 then some (conv / clk) else some 0
    | _, _ => none
  else evalExpr vars formula

/-- The whole calculated-fields loop over one row: each derived metric
`(key, display name, formula)` contributes its display name with the
evaluation result (`none` when the evaluation faulted); the loop never
aborts. -/
def calcFieldsOut (vars : List (String × ℚ))
    (calcs : List (String × String × Expr)) : List (String × Option ℚ) :=
  calcs.map (fun c => (c.2.1, computeCalcField vars c.1 c.2.2))

/-- The display-name lookup of the shaping loops: the `name` cell of the
first configuration row keyed by the metric, falling back to the raw key
when no row matches. -/
def displayName (rows : List MetricRow) (metric : String) : String :=
  match rows.find? (fun r => r.metrics == metric) with
  | some r => r.name
  | none => metric

/-- The unit conversion of the requested-metrics loop of
`get_campaign_metrics`: the `cost_micros` value is divided by 1,000,000;
every other metric value is stored unconverted. -/
def shapeMetricValue (metric : String) (v : ℚ) : ℚ :=
  if metric == "cost_micros" then v / 1000000 else v

/-- The requested-metrics loop of `get_campaign_metrics` over one raw
row: for each active metric present on the row (`hasattr`), the output
record gains the display name mapped to the (possibly unit-converted)
value; absent metrics are skipped. -/
def shapeRequestedFields (rows : List MetricRow) (activeList : List String)
    (raw : List (String × ℚ)) : List (String × ℚ) :=
  activeList.filterMap (fun m =>
    match lookupVar raw m with
    | some v => some (displayName rows m, shapeMetricValue m v)
    | none => none)

/-- The `variables` dict the same loop builds for the derived formulas:
keyed by the raw metric key, holding the converted value. -/
def collectVariables (activeList : List String)
    (raw : List (String × ℚ)) : List (String × ℚ) :=
  activeList.filterMap (fun m =>
    match lookupVar raw m with
    | some v => some (m, shapeMetricValue m v)
    | none => none)

/-! ### Dummy-data generator -/

/-- One shaped campaign record: the four fixed dimension fields, the
requested-metric fields, and the derived fields, kept in the insertion
order of the Python dict. -/
structure CampaignRecord where
  baseFields : List (String × String)
  metricFields : List (String × ℚ)
  calcFields : List (String × Option ℚ)
deriving DecidableEq, Repr

/-- The per-metric dummy value rule of
`GoogleAdsAPI.get_dummy_campaign_metrics` for campaign number `i`
(values in ℚ; every field the claims touch is integer-valued and exact
under Python float arithmetic too). -/
def dummyMetricValue (i : ℕ) (metric : String) : ℚ :=
  if metric == "impressions" then i * 1000 + i * 100
  else if metric == "clicks" then i * 50 + i * 10
  else if metric == "cost_micros" then (i * 5000 + i * 500) / 1000000
  else if metric == "conversions" then i * 2 + i * (1 / 2)
  else if metric == "ctr" then 1 / 20 + i * (1 / 200)
  else if metric == "average_cpc" then 100 + i * 10
  else if metric == "search_top_impression_share" then 3 / 10 + i * (1 / 20)
  else i * 10

/-- `num_campaigns = 10`. -/
def numCampaigns : ℕ := 10

/-- One dummy campaign record (loop body of
`get_dummy_campaign_metrics`): the fixed base fields for campaign `i`,
the active metrics with their dummy values under their display names, and
the derived fields computed from the `variables` dict. -/
def mkDummyCampaign (rows : List MetricRow) (activeList : List String)
    (calcs : List (String × String × Expr)) (i : ℕ) : CampaignRecord :=
  let varsMap := activeList.map (fun m => (m, dummyMetricValue i m))
  { baseFields :=
      [("キャンペーンID", "10000" ++ toString i),
       ("キャンペーン名", "テストキャンペーン " ++ toString i),
       ("ステータス", "ENABLED"),
       ("キャンペーンタイプ", "SEARCH")]
    metricFields := activeList.map
      (fun m => (displayName rows m, dummyMetricValue i m))
    calcFields := calcFieldsOut varsMap calcs }

/-- `GoogleAdsAPI.get_dummy_campaign_metrics`: ten dummy records for
campaigns 1..10, built from the configuration alone (no destination
input).  `parseFormula` renders each `calc` string as its expression
tree. -/
def getDummyCampaignMetrics (cfg : MetricsConfig)
    (parseFormula : String → Expr) : List CampaignRecord :=
  let activeList := get_active_metrics_list cfg
  let calcs := (get_calculated_metrics cfg).map
    (fun e => (e.1, e.2.1, parseFormula e.2.2))
  (List.range numCampaigns).map
    (fun j => mkDummyCampaign cfg.rows activeList calcs (j + 1))

/-! ### Merge-and-persist (`main.py`, step 3) -/

/-- A pandas DataFrame as the persist step observes it: column header and
data rows (string cells, as spreadsheet values are). -/
structure DF where
  cols : List String
  rows : List (List String)
deriving DecidableEq, Repr

/-- `SpreadsheetUtils.read_as_dataframe` (header mode): an empty value
range gives an empty frame; otherwise the first row is the header and the
rest are the data rows. -/
def readAsDataFrame (values : List (List String)) : DF :=
  match values with
  | [] => ⟨[], []⟩
  | h :: t => ⟨h, t⟩

/-- pandas `DataFrame.empty`: true when either axis has length zero. -/
def dfEmpty (d : DF) : Bool := d.rows.isEmpty || d.cols.isEmpty

/-- `pd.concat([existing_df, df], ignore_index=True)` in the pipeline
case where both frames carry the same columns: the rows of the first
followed by the rows of the second. -/
def pdConcat (a b : DF) : DF := ⟨a.cols, a.rows ++ b.rows⟩

/-- `SpreadsheetUtils.write_dataframe` (header included): the cell rows
written to the destination — the header row followed by the data rows. -/
def writeDataFrameValues (d : DF) : List (List String) := d.cols :: d.rows

/-- Step 3 of `main.py`: try to read the existing table; when the read
succeeds and the frame is non-empty, write existing-then-new with a
header; when the read returns an empty frame or raises, write the new
records alone.  The result is the table written to the destination — the
function is total, so a read fault never propagates. -/
def persistStep (readRes : Except Unit (List (List String)))
    (newDf : DF) : List (List String) :=
  match readRes with
  | Except.error _ => writeDataFrameValues newDf
  | Except.ok values =>
    let existing := readAsDataFrame values
    if dfEmpty existing then writeDataFrameValues newDf
    else writeDataFrameValues (pdConcat existing newDf)

/-- A concrete configuration exercising the C1 counterexample: status
filter configured as `PAUSED`, one requested metric, explicit window and
limit rows. -/
def c1cfg : MetricsConfig :=
  ⟨[⟨"campaign_status", "ステータスフィルタ", CellVal.s "TRUE", none, some "PAUSED"⟩,
    ⟨"impressions", "インプレッション数", CellVal.s "TRUE", some "", none⟩,
    ⟨"limit", "取得件数上限", CellVal.s "TRUE", none, some "50"⟩,
    ⟨"period_days", "取得期間", CellVal.s "TRUE", none, some "7"⟩],
   true, true⟩

/-- A concrete configuration whose `limit` parameter is the non-integer
text `"abc"`. -/
def c2cfg : MetricsConfig :=
  ⟨[⟨"limit", "取得件数上限", CellVal.s "TRUE", none, some "abc"⟩,
    ⟨"period_days", "取得期間", CellVal.s "TRUE", none, some "xyz"⟩],
   true, false⟩

/-- A concrete configuration with one requested metric, one derived
metric and one reserved parameter row. -/
def c7cfg : MetricsConfig :=
  ⟨[⟨"impressions", "インプレッション数", CellVal.s "TRUE", some "", none⟩,
    ⟨"conversion_rate", "CVR", CellVal.s "TRUE",
      some "conversions / clicks", none⟩,
    ⟨"limit", "取得件数上限", CellVal.s "TRUE", none, some "100"⟩],
   true, true⟩

/-- A concrete configuration whose table has no `active` column. -/
def c10cfg : MetricsConfig :=
  ⟨[⟨"impressions", "インプレッション数", CellVal.na, some "", none⟩,
    ⟨"conversion_rate", "CVR", CellVal.na,
      some "conversions / clicks", none⟩],
   false, true⟩

end AdSample

namespace AdSample

/-! ### Structural lemmas on the resolver views -/

/-- Unpacks membership in `get_active_metrics_list`: the key comes from an
active, non-reserved row, with an empty formula whenever the table has a
`calc` column. -/
theorem mem_active_metrics_list {cfg : MetricsConfig} {k : String}
    (h : k ∈ get_active_metrics_list cfg) :
    ∃ r ∈ cfg.rows, r.metrics = k ∧ rowIsActive cfg r = true ∧
      excludedFields.contains k = false ∧
      (cfg.hasCalcCol = true → calcIsEmpty r.calcCell = true) := by
  unfold get_active_metrics_list at h
  by_cases hc : cfg.hasCalcCol = true
  · rw [if_pos hc] at h
    rcases List.mem_map.mp h with ⟨r, hr, hk⟩
    rcases List.mem_filter.mp hr with ⟨hr2, hcond⟩
    rcases List.mem_filter.mp hr2 with ⟨hrows, hactive⟩
    simp only [Bool.and_eq_true, Bool.not_eq_true'] at hcond
    exact ⟨r, hrows, hk, hactive, hk ▸ hcond.1, fun _ => hcond.2⟩
  · rw [if_neg hc] at h
    rcases List.mem_map.mp h with ⟨r, hr, hk⟩
    rcases List.mem_filter.mp hr with ⟨hr2, hcond⟩
    rcases List.mem_filter.mp hr2 with ⟨hrows, hactive⟩
    simp only [Bool.not_eq_true'] at hcond
    exact ⟨r, hrows, hk, hactive, hk ▸ hcond, fun hcc => absurd hcc hc⟩

/-- Unpacks membership in `get_calculated_metrics`: the entry comes from
an active row with a non-empty formula, and the table has a `calc`
column. -/
theorem mem_calculated_metrics {cfg : MetricsConfig}
    {e : String × String × String} (h : e ∈ get_calculated_metrics cfg) :
    ∃ r ∈ cfg.rows, e = (r.metrics, r.name, r.calcCell.getD "") ∧
      rowIsActive cfg r = true ∧ calcIsEmpty r.calcCell = false ∧
      cfg.hasCalcCol = true := by
  unfold get_calculated_metrics at h
  by_cases hc : cfg.hasCalcCol = true
  · simp only [hc, Bool.not_true, Bool.false_eq_true, if_false] at h
    rcases List.mem_map.mp h with ⟨r, hr, he⟩
    rcases List.mem_filter.mp hr with ⟨hrows, hcond⟩
    simp only [Bool.and_eq_true, Bool.not_eq_true'] at hcond
    exact ⟨r, hrows, he.symm, hcond.1, hcond.2, hc⟩
  · simp only [Bool.not_eq_true'] at hc
    simp only [hc, Bool.not_false, if_true] at h
    cases h

/-- With pairwise-distinct metric keys, two rows carrying the same key
coincide. -/
theorem row_key_unique {cfg : MetricsConfig}
    (hu : cfg.rows.Pairwise (fun a b => a.metrics ≠ b.metrics))
    {r₀ r₁ : MetricRow} (h₀ : r₀ ∈ cfg.rows) (h₁ : r₁ ∈ cfg.rows)
    (hk : r₀.metrics = r₁.metrics) : r₀ = r₁ := by
  by_contra hne
  exact hu.forall (fun a b hab => fun hba => hab hba.symm) h₀ h₁ hne hk

/-! ### C6 — tolerant boolean parsing of the active flag -/

/-- C6 counterexample: the claim says the text `"true"` in any letter
case is treated as active, but the all-lowercase spelling `"true"` is
rejected by the source's three-way comparison. -/
theorem c6_counterexample : isActiveTruthy (CellVal.s "true") = false := by
  decide

/-- C6 (amended): the active flag is treated as true exactly for the
native boolean `True` and the two exact text spellings `"TRUE"` and
`"True"`; every other value (lowercase `"true"` included) is treated as
false, and the test is total — no value raises. -/
theorem c6_active_flag (v : CellVal) :
    isActiveTruthy v = true ↔
      v = CellVal.b true ∨ v = CellVal.s "TRUE" ∨ v = CellVal.s "True" := by
  cases v with
  | b x => cases x <;> simp [isActiveTruthy]
  | s x => simp [isActiveTruthy]
  | na => simp [isActiveTruthy]

/-! ### C4 — merge preserves existing rows, appends new ones -/

/-- C4: persisting a batch of N new records onto a destination whose read
returns a header and M data rows (same schema) writes back the header row
followed by exactly the M prior rows — unchanged and in order — and then
the N new rows. -/
theorem c4_merge_append_order (h : List String) (data : List (List String))
    (newDf : DF) (hne : data ≠ []) (hcols : h ≠ [])
    (hschema : newDf.cols = h) :
    persistStep (Except.ok (h :: data)) newDf = h :: (data ++ newDf.rows) ∧
    (persistStep (Except.ok (h :: data)) newDf).length
      = 1 + data.length + newDf.rows.length ∧
    ((persistStep (Except.ok (h :: data)) newDf).drop 1).take data.length
      = data := by
  have hde : dfEmpty ⟨h, data⟩ = false := by
    simp [dfEmpty, hne, hcols]
  have hmain : persistStep (Except.ok (h :: data)) newDf
      = h :: (data ++ newDf.rows) := by
    simp [persistStep, readAsDataFrame, hde, pdConcat, writeDataFrameValues]
  refine ⟨hmain, ?_, ?_⟩
  · rw [hmain]
    simp [List.length_append]
    omega
  · rw [hmain]
    simp [List.take_left]

/-- C4 witness: a destination holding one prior row and a one-row batch. -/
theorem c4_merge_append_order_witness :
    ([["h1"], ["x1"]] : List (List String)) = ["h1"] :: [["x1"]] ∧
    persistStep (Except.ok [["h1"], ["x1"]]) ⟨["h1"], [["y1"]]⟩
      = ["h1"] :: ([["x1"]] ++ [["y1"]]) :=
  ⟨rfl,
    (c4_merge_append_order ["h1"] [["x1"]] ⟨["h1"], [["y1"]]⟩
      (by decide) (by decide) rfl).1⟩

/-! ### C5 — fresh write on empty or unreadable destination -/

/-- C5: when the destination read raises, or reads back as an empty
frame, the persist step writes the new records alone — header plus
exactly the N batch rows in order — and a read fault is absorbed (the
step still produces a write). -/
theorem c5_fresh_write (newDf : DF) (values : List (List String))
    (hempty : dfEmpty (readAsDataFrame values) = true) :
    persistStep (Except.error ()) newDf = newDf.cols :: newDf.rows ∧
    persistStep (Except.ok values) newDf = newDf.cols :: newDf.rows ∧
    (persistStep (Except.ok values) newDf).length = 1 + newDf.rows.length := by
  have hok : persistStep (Except.ok values) newDf
      = newDf.cols :: newDf.rows := by
    simp [persistStep, hempty, writeDataFrameValues]
  refine ⟨rfl, hok, ?_⟩
  rw [hok]
  simp [Nat.add_comm]

/-- C5 witness: an entirely empty destination and a one-row batch. -/
theorem c5_fresh_write_witness :
    dfEmpty (readAsDataFrame []) = true ∧
    persistStep (Except.error ()) ⟨["h1"], [["y1"]]⟩ = [["h1"], ["y1"]] ∧
    persistStep (Except.ok []) ⟨["h1"], [["y1"]]⟩ = [["h1"], ["y1"]] :=
  ⟨by decide,
    (c5_fresh_write ⟨["h1"], [["y1"]]⟩ [] (by decide)).1,
    (c5_fresh_write ⟨["h1"], [["y1"]]⟩ [] (by decide)).2.1⟩

/-! ### C9 — micros-to-currency conversion on shaping -/

/-- C9: in the requested-metrics shaping loop, a present `cost_micros`
value is stored under its display name divided by 1,000,000, and every
other present metric is stored unconverted. -/
theorem c9_cost_micros_conversion (rows : List MetricRow)
    (activeList : List String) (raw : List (String × ℚ)) (m : String) (v : ℚ)
    (hm : m ∈ activeList) (hv : lookupVar raw m = some v) :
    (m = "cost_micros" →
      (displayName rows m, v / 1000000)
        ∈ shapeRequestedFields rows activeList raw) ∧
    (m ≠ "cost_micros" →
      (displayName rows m, v) ∈ shapeRequestedFields rows activeList raw) := by
  constructor
  · intro hcost
    subst hcost
    refine List.mem_filterMap.mpr ⟨"cost_micros", hm, ?_⟩
    rw [hv]
    simp [shapeMetricValue]
  · intro hne
    refine List.mem_filterMap.mpr ⟨m, hm, ?_⟩
    rw [hv]
    simp [shapeMetricValue, hne]

/-- C9 witness: a raw cost of 5,000,000 micros shapes to 5 currency
units. -/
theorem c9_cost_micros_conversion_witness :
    lookupVar [("cost_micros", (5000000 : ℚ))] "cost_micros"
      = some 5000000 ∧
    (displayName [] "cost_micros", (5 : ℚ))
      ∈ shapeRequestedFields [] ["cost_micros"]
          [("cost_micros", (5000000 : ℚ))] := by
  refine ⟨rfl, ?_⟩
  have h := (c9_cost_micros_conversion [] ["cost_micros"]
    [("cost_micros", (5000000 : ℚ))] "cost_micros" 5000000
    (by simp) rfl).1 rfl
  norm_num at h
  exact h

/-! ### C3 — derived-metric faults are per-field, zero-clicks guard -/

/-- C3: with `conversions` and `clicks` both present and `clicks = 0`,
the `conversion_rate` derivation yields 0 (no division fault) whatever
the configured formula; and in the calculated-fields loop a formula whose
evaluation faults contributes `none` for its own field only — the fields
before and after it are computed exactly as they would be without it, so
one bad formula never aborts the batch. -/
theorem c3_derived_metric_guard (vars : List (String × ℚ)) (conv : ℚ)
    (hconv : lookupVar vars "conversions" = some conv)
    (hclk : lookupVar vars "clicks" = some 0) :
    (∀ f : Expr, computeCalcField vars "conversion_rate" f = some 0) ∧
    (∀ (c₁ c₂ : List (String × String × Expr)) (k n : String) (f : Expr),
      computeCalcField vars k f = none →
      calcFieldsOut vars (c₁ ++ (k, n, f) :: c₂)
        = calcFieldsOut vars c₁ ++ (n, none) :: calcFieldsOut vars c₂) := by
  constructor
  · intro f
    simp [computeCalcField, hconv, hclk]
  · intro c₁ c₂ k n f hf
    simp [calcFieldsOut, hf]

/-- C3 witness: conversions=10, clicks=0 gives conversion_rate 0 even for
the raw division formula, and a division-by-zero formula in the middle of
a batch nulls only its own field. -/
theorem c3_derived_metric_guard_witness :
    lookupVar [("conversions", (10 : ℚ)), ("clicks", 0)] "conversions"
      = some 10 ∧
    lookupVar [("conversions", (10 : ℚ)), ("clicks", 0)] "clicks" = some 0 ∧
    computeCalcField [("conversions", (10 : ℚ)), ("clicks", 0)]
      "conversion_rate" (Expr.div (Expr.var "conversions") (Expr.var "clicks"))
      = some 0 ∧
    calcFieldsOut [("conversions", (10 : ℚ)), ("clicks", 0)]
        ([("cpa", "CPA", Expr.lit 2)]
          ++ ("bad", "BAD", Expr.div (Expr.lit 1) (Expr.lit 0))
            :: [("cpc", "CPC", Expr.lit 3)])
      = calcFieldsOut [("conversions", (10 : ℚ)), ("clicks", 0)]
          [("cpa", "CPA", Expr.lit 2)]
        ++ ("BAD", none)
          :: calcFieldsOut [("conversions", (10 : ℚ)), ("clicks", 0)]
              [("cpc", "CPC", Expr.lit 3)] := by
  have h := c3_derived_metric_guard
    [("conversions", (10 : ℚ)), ("clicks", 0)] 10 (by decide) (by decide)
  refine ⟨by decide, by decide, h.1 _, h.2 _ _ "bad" "BAD" _ ?_⟩
  decide

/-! ### C8 — dummy-data generator -/

/-- C8 counterexample: the claim instantiates the dummy rule at `i = 3`
as 3900, but `3 * 1000 + 3 * 100 = 3300`. -/
theorem c8_counterexample : ¬ dummyMetricValue 3 "impressions" = 3900 := by
  norm_num [dummyMetricValue]

/-- C8 (amended): the dummy generator always produces exactly 10 campaign
records (it takes no destination input, so destination state is
irrelevant), campaign `i`'s impressions follow the rule
`i * 1000 + i * 100`, so campaign `i = 3` yields impressions 3300; any
record's impressions field carries that value whenever `impressions` is
among the active metrics. -/
theorem c8_dummy_generator (cfg : MetricsConfig) (pf : String → Expr) :
    (getDummyCampaignMetrics cfg pf).length = 10 ∧
    (∀ i : ℕ, dummyMetricValue i "impressions" = i * 1000 + i * 100) ∧
    dummyMetricValue 3 "impressions" = 3300 ∧
    (∀ (rows : List MetricRow) (activeList : List String)
        (calcs : List (String × String × Expr)) (i : ℕ),
      "impressions" ∈ activeList →
      (displayName rows "impressions", dummyMetricValue i "impressions")
        ∈ (mkDummyCampaign rows activeList calcs i).metricFields) := by
  refine ⟨?_, ?_, ?_, ?_⟩
  · simp [getDummyCampaignMetrics, numCampaigns]
  · intro i
    simp [dummyMetricValue]
  · norm_num [dummyMetricValue]
  · intro rows activeList calcs i hmem
    exact List.mem_map.mpr ⟨"impressions", hmem, rfl⟩

/-- C8 witness: the generator over the C1 sample configuration yields 10
records, and record 3's impressions field is 3300. -/
theorem c8_dummy_generator_witness :
    (getDummyCampaignMetrics c1cfg (fun _ => Expr.lit 0)).length = 10 ∧
    ("impressions" : String) ∈ (["impressions"] : List String) ∧
    (displayName c1cfg.rows "impressions", (3300 : ℚ))
      ∈ (mkDummyCampaign c1cfg.rows ["impressions"] [] 3).metricFields := by
  have h := c8_dummy_generator c1cfg (fun _ => Expr.lit 0)
  refine ⟨h.1, by decide, ?_⟩
  have h3 := h.2.2.2 c1cfg.rows ["impressions"] [] 3 (by decide)
  have hv : dummyMetricValue 3 "impressions" = 3300 := h.2.2.1
  rw [hv] at h3
  exact h3

/-! ### C7 — resolver view invariants -/

/-- C7: with unique metric keys (and formulas only present when the table
has a `calc` column), the requested-fields view never holds a key whose
definition has a non-empty formula and never holds a reserved parameter
key; the derived-metrics view only holds entries with a non-empty
formula, whose defining rows all have a non-empty `calc` cell; and no key
appears in both views. -/
theorem c7_resolver_invariants (cfg : MetricsConfig)
    (hu : cfg.rows.Pairwise (fun a b => a.metrics ≠ b.metrics))
    (hwf : cfg.hasCalcCol = false → ∀ r ∈ cfg.rows, r.calcCell = none) :
    (∀ k ∈ get_active_metrics_list cfg,
      ∀ r ∈ cfg.rows, r.metrics = k → calcIsEmpty r.calcCell = true) ∧
    (∀ k ∈ get_active_metrics_list cfg,
      excludedFields.contains k = false) ∧
    (∀ e ∈ get_calculated_metrics cfg, e.2.2 ≠ "" ∧
      ∀ r ∈ cfg.rows, r.metrics = e.1 → calcIsEmpty r.calcCell = false) ∧
    (∀ k ∈ get_active_metrics_list cfg,
      ∀ e ∈ get_calculated_metrics cfg, e.1 ≠ k) := by
  refine ⟨?_, ?_, ?_, ?_⟩
  · intro k hk r hr hrk
    by_cases hc : cfg.hasCalcCol = true
    · rcases mem_active_metrics_list hk with ⟨r₀, h₀, hk₀, _, _, hce⟩
      have : r = r₀ := row_key_unique hu hr h₀ (by rw [hrk, hk₀])
      rw [this]
      exact hce hc
    · have hcf : cfg.hasCalcCol = false := by
        cases hcc : cfg.hasCalcCol
        · rfl
        · exact absurd hcc hc
      rw [hwf hcf r hr]
      rfl
  · intro k hk
    rcases mem_active_metrics_list hk with ⟨_, _, _, _, hexc, _⟩
    exact hexc
  · intro e he
    rcases mem_calculated_metrics he with ⟨r₀, h₀, he₀, _, hne, _⟩
    constructor
    · rw [he₀]
      cases hcc : r₀.calcCell with
      | none => rw [hcc] at hne; cases hne
      | some s =>
        rw [hcc] at hne
        simp only [calcIsEmpty, beq_eq_false_iff_ne, ne_eq] at hne
        simpa using hne
    · intro r hr hrk
      have : r = r₀ := row_key_unique hu hr h₀ (by rw [hrk, he₀])
      rw [this]
      exact hne
  · intro k hk e he heq
    rcases mem_active_metrics_list hk with ⟨r₀, h₀, hk₀, _, _, hce⟩
    rcases mem_calculated_metrics he with ⟨r₁, h₁, he₁, _, hne, hcc⟩
    have hkeys : r₀.metrics = r₁.metrics := by
      rw [hk₀, ← heq, he₁]
    have : r₀ = r₁ := row_key_unique hu h₀ h₁ hkeys
    rw [this] at hce
    rw [hce hcc] at hne
    cases hne

/-- C7 witness: the sample configuration with one requested metric, one
derived metric and one parameter row. -/
theorem c7_resolver_invariants_witness :
    c7cfg.rows.Pairwise (fun a b => a.metrics ≠ b.metrics) ∧
    (∀ k ∈ get_active_metrics_list c7cfg,
      excludedFields.contains k = false) ∧
    (∀ k ∈ get_active_metrics_list c7cfg,
      ∀ e ∈ get_calculated_metrics c7cfg, e.1 ≠ k) := by
  have hu : c7cfg.rows.Pairwise (fun a b => a.metrics ≠ b.metrics) := by
    decide
  have h := c7_resolver_invariants c7cfg hu (by decide)
  exact ⟨hu, h.2.1, h.2.2.2⟩

/-! ### C10 — missing `active` column treats every row as active -/

/-- C10: when the table has no `active` column, every row is treated as
active: each non-reserved row with an empty formula contributes its key
to the requested-fields view, and each row with a non-empty formula
contributes an entry to the derived-metrics view. -/
theorem c10_missing_active_column (cfg : MetricsConfig)
    (hact : cfg.hasActiveCol = false)
    (hwf : cfg.hasCalcCol = false → ∀ r ∈ cfg.rows, r.calcCell = none) :
    (∀ r ∈ cfg.rows, excludedFields.contains r.metrics = false →
      calcIsEmpty r.calcCell = true →
      r.metrics ∈ get_active_metrics_list cfg) ∧
    (∀ r ∈ cfg.rows, calcIsEmpty r.calcCell = false →
      (r.metrics, r.name, r.calcCell.getD "")
        ∈ get_calculated_metrics cfg) := by
  have hactive : ∀ r : MetricRow, rowIsActive cfg r = true := by
    intro r
    simp [rowIsActive, hact]
  constructor
  · intro r hr hexc hce
    have hexc2 : r.metrics ∉ excludedFields := by simpa using hexc
    unfold get_active_metrics_list
    by_cases hc : cfg.hasCalcCol = true
    · rw [if_pos hc]
      refine List.mem_map.mpr ⟨r, List.mem_filter.mpr ⟨?_, ?_⟩, rfl⟩
      · exact List.mem_filter.mpr ⟨hr, hactive r⟩
      · simp [hexc2, hce]
    · rw [if_neg hc]
      refine List.mem_map.mpr ⟨r, List.mem_filter.mpr ⟨?_, ?_⟩, rfl⟩
      · exact List.mem_filter.mpr ⟨hr, hactive r⟩
      · simp [hexc2]
  · intro r hr hne
    have hc : cfg.hasCalcCol = true := by
      cases hcc : cfg.hasCalcCol
      · rw [hwf hcc r hr] at hne
        cases hne
      · rfl
    unfold get_calculated_metrics
    rw [hc]
    simp only [Bool.not_true, Bool.false_eq_true, if_false]
    refine List.mem_map.mpr ⟨r, List.mem_filter.mpr ⟨hr, ?_⟩, rfl⟩
    simp [hactive r, hne]

/-- C10 witness: the two-row configuration lacking an `active` column. -/
theorem c10_missing_active_column_witness :
    c10cfg.hasActiveCol = false ∧
    ("impressions" : String) ∈ get_active_metrics_list c10cfg ∧
    ("conversion_rate", "CVR", "conversions / clicks")
      ∈ get_calculated_metrics c10cfg := by
  have h := c10_missing_active_column c10cfg (by decide) (by decide)
  refine ⟨by decide, ?_, ?_⟩
  · have := h.1 ⟨"impressions", "インプレッション数", CellVal.na, some "", none⟩
      (by decide) (by decide) (by decide)
    exact this
  · have := h.2 ⟨"conversion_rate", "CVR", CellVal.na,
      some "conversions / clicks", none⟩ (by decide) (by decide)
    exact this

/-! ### C2 — non-integer reserved parameters -/

/-- C2 counterexample: the claim says resolving the parameters never
raises, but `get_query_parameters` converts the reserved values with a
bare `int(...)`, and on the configuration whose `period_days`/`limit`
cells hold non-integer text it propagates the `ValueError` instead of
falling back to a default. -/
theorem c2_counterexample :
    get_query_parameters c2cfg
      = Except.error "ValueError: invalid literal for int()" := by
  rfl

/-- C2 (amended): the resolvers the pipeline calls — `get_period_days`
and `get_limit` — yield the documented defaults 30 and 100 whenever the
reserved row's value fails integer conversion, and they never raise (they
are total); the unused `get_query_parameters` resolver, by contrast,
propagates the conversion fault. -/
theorem c2_parameter_fallback (cfg : MetricsConfig) (rl rp : MetricRow)
    (restl restp : List MetricRow)
    (hl : cfg.rows.filter (fun r => r.metrics == "limit") = rl :: restl)
    (hlp : pyCellToInt rl.parameter = none)
    (hp : cfg.rows.filter (fun r => r.metrics == "period_days") = rp :: restp)
    (hpp : pyCellToInt rp.parameter = none) :
    get_limit cfg = 100 ∧ get_period_days cfg = 30 := by
  constructor
  · unfold get_limit
    rw [hl]
    simp [hlp]
  · unfold get_period_days
    rw [hp]
    simp [hpp]

/-- C2 witness: `limit="abc"` resolves to 100 and `period_days="xyz"`
resolves to 30. -/
theorem c2_parameter_fallback_witness :
    pyCellToInt (some "abc") = none ∧
    get_limit c2cfg = 100 ∧
    get_period_days c2cfg = 30 := by
  have h := c2_parameter_fallback c2cfg
    ⟨"limit", "取得件数上限", CellVal.s "TRUE", none, some "abc"⟩
    ⟨"period_days", "取得期間", CellVal.s "TRUE", none, some "xyz"⟩
    [] [] (by decide) (by decide) (by decide) (by decide)
  exact ⟨by decide, h.1, h.2⟩

/-! ### C1 — the query submitted to the Ads service -/

set_option maxRecDepth 10000 in
/-- C1 counterexample: on a configuration whose status filter is
`PAUSED`, the query `get_campaign_metrics` submits contains no
`ORDER BY metrics.impressions DESC` clause, no positive-impressions
guard, and no filter on the configured status — those clauses exist only
in the never-called `build_query` helper, and the submitted filter is the
hardcoded `'ENABLED'`. -/
theorem c1_counterexample :
    activeParamCell c1cfg "campaign_status" = some "PAUSED" ∧
    strHas (getCampaignMetricsQuery c1cfg (fun d => toString d) 100)
      "ORDER BY metrics.impressions DESC" = false ∧
    strHas (getCampaignMetricsQuery c1cfg (fun d => toString d) 100)
      "metrics.impressions > 0" = false ∧
    strHas (getCampaignMetricsQuery c1cfg (fun d => toString d) 100)
      "campaign.status = 'PAUSED'" = false := by
  refine ⟨by decide, ?_, ?_, ?_⟩ <;> decide

/-- Containment facts about the submitted-query template, for any
interpolated field list, date strings and limit. -/
theorem submittedQueryStr_facts (fields : List String) (s e : String)
    (lim : Int) :
    strHas (submittedQueryStr fields s e lim) "campaign.id" = true ∧
    strHas (submittedQueryStr fields s e lim) "campaign.name" = true ∧
    strHas (submittedQueryStr fields s e lim) "campaign.status" = true ∧
    strHas (submittedQueryStr fields s e lim)
      "campaign.advertising_channel_type" = true ∧
    strHas (submittedQueryStr fields s e lim)
      "campaign.status = 'ENABLED'" = true ∧
    strHas (submittedQueryStr fields s e lim)
      ("segments.date >= '" ++ s ++ "'") = true ∧
    strHas (submittedQueryStr fields s e lim)
      ("segments.date <= '" ++ e ++ "'") = true ∧
    strHas (submittedQueryStr fields s e lim)
      ("LIMIT " ++ toString lim) = true ∧
    fields.all (fun f => strHas (submittedQueryStr fields s e lim) f)
      = true := by
  unfold submittedQueryStr
  refine ⟨?_, ?_, ?_, ?_, ?_, ?_, ?_, ?_, ?_⟩
  · exact strHas_append_left _ (by decide)
  · exact strHas_append_left _ (by decide)
  · exact strHas_append_left _ (by decide)
  · exact strHas_append_left _ (by decide)
  · exact strHas_append_right _ (strHas_append_right _
      (strHas_append_left _ (by decide)))
  · exact strHas_append_right _ (strHas_append_right _
      (strHas_append_right _ (strHas_append_left _ (strHas_self _))))
  · exact strHas_append_right _ (strHas_append_right _
      (strHas_append_right _ (strHas_append_right _ (strHas_append_right _
        (strHas_append_left _ (strHas_self _))))))
  · exact strHas_append_right _ (strHas_append_right _
      (strHas_append_right _ (strHas_append_right _ (strHas_append_right _
        (strHas_append_right _ (strHas_append_right _
          (strHas_append_left _ (strHas_self _))))))))
  · refine List.all_eq_true.mpr ?_
    intro f hf
    exact strHas_append_right _ (strHas_append_left _ (strHas_joinComma hf))

/-- C1 (amended): for every resolved configuration, the query
`get_campaign_metrics` submits selects the four fixed campaign dimensions
plus every mapped resolved requested field, restricts `segments.date`
inclusively to `[today - period_days, today]` as rendered by the ISO date
formatter, filters on the hardcoded status `'ENABLED'` (the configured
status filter is not consulted), and is bounded by the configured row
limit; the impressions guard and descending impressions ordering of the
claim exist only in the never-called `build_query` helper. -/
theorem c1_submitted_query (cfg : MetricsConfig) (iso : Int → String)
    (today : Int) :
    strHas (getCampaignMetricsQuery cfg iso today) "campaign.id" = true ∧
    strHas (getCampaignMetricsQuery cfg iso today) "campaign.name" = true ∧
    strHas (getCampaignMetricsQuery cfg iso today) "campaign.status" = true ∧
    strHas (getCampaignMetricsQuery cfg iso today)
      "campaign.advertising_channel_type" = true ∧
    strHas (getCampaignMetricsQuery cfg iso today)
      "campaign.status = 'ENABLED'" = true ∧
    strHas (getCampaignMetricsQuery cfg iso today)
      ("segments.date >= '" ++ iso (today - get_period_days cfg) ++ "'")
      = true ∧
    strHas (getCampaignMetricsQuery cfg iso today)
      ("segments.date <= '" ++ iso today ++ "'") = true ∧
    strHas (getCampaignMetricsQuery cfg iso today)
      ("LIMIT " ++ toString (get_limit cfg)) = true ∧
    ((get_active_metrics_list cfg).map get_field_mapping).all
      (fun f => strHas (getCampaignMetricsQuery cfg iso today) f) = true := by
  have h := submittedQueryStr_facts
    ((get_active_metrics_list cfg).map get_field_mapping)
    (iso (today - get_period_days cfg)) (iso today) (get_limit cfg)
  simpa [getCampaignMetricsQuery] using h

end AdSample
